import Mathlib

/-
Verification of the debate orchestration / retrospective judging subsystem
of the ai-debate repository.

The development shallowly embeds the Python source:

* `Json` models the values produced by Python's `json.loads` (the numeric
  fragment is modelled by `Int`; JSON floats never occur in the validated
  shapes, which check `isinstance(_, int)`).  `json.loads` itself is an
  external library capability and is passed to the embedded functions as an
  explicit parameter `L : String → Option Json`, exactly as the network
  `generate` capability is passed as an explicit function parameter.
* `Entry` models the debate-history dictionaries flowing through the
  pipeline (`position`, `model`, `refused`, `refusal_reason`, `url`,
  `quote`, `context`, `argument`); `refusal_reason := none` models absence
  of the key, and downstream reads use the same `.get` defaults as the
  source.
* The SQLite store is modelled as lists of rows; `AUTOINCREMENT` ids are
  the successive row counts.  Python's `sqlite3` leaves the SQLite
  `foreign_keys` pragma at its default (off), and the source never turns it
  on, so the `FOREIGN KEY` clause declared on the `judgments` table is not
  enforced at insert time; the model therefore appends unconditionally.
-/

namespace AiDebate

/-- JSON-like values as produced by Python's `json.loads`: `None`, `bool`,
`int`, `str`, `list`, `dict` (association list; `json.loads` yields
key-unique dictionaries). -/
inductive Json where
  | null
  | bool (b : Bool)
  | num (n : Int)
  | str (s : String)
  | arr (elems : List Json)
  | obj (fields : List (String × Json))

/-- Python `dict[key]` lookup restricted to objects (`None` for a missing
key or a non-dict value). -/
def Json.getKey : Json → String → Option Json
  | .obj fields, k => fields.lookup k
  | _, _ => none

/-- Python `dict.get(key, default)`. -/
def Json.getD (j : Json) (k : String) (d : Json) : Json :=
  (j.getKey k).getD d

/-- Python `key in dict`. -/
def Json.hasKey (j : Json) (k : String) : Bool :=
  (j.getKey k).isSome

/-- Python dict assignment `d[k] = v`: an existing key is updated in place
(order preserved), a new key is appended. -/
def Json.setKey : Json → String → Json → Json
  | .obj fields, k, v =>
      if fields.any (fun p => p.1 == k) then
        .obj (fields.map (fun p => if p.1 == k then (k, v) else p))
      else
        .obj (fields ++ [(k, v)])
  | j, _, _ => j

/-- Python truthiness of a JSON value (`if result.get("refused", False):`). -/
def Json.truthy : Json → Bool
  | .null => false
  | .bool b => b
  | .num n => n != 0
  | .str s => s != ""
  | .arr elems => !elems.isEmpty
  | .obj fields => !fields.isEmpty

/-- Python `isinstance(x, int)`; note that `bool` is a subclass of `int`
in Python, so booleans pass this check. -/
def Json.isInt : Json → Bool
  | .num _ => true
  | .bool _ => true
  | _ => false

/-- The integer value of a Python int (with `True = 1`, `False = 0`).
Only meaningful when `isInt` holds. -/
def Json.asInt : Json → Int
  | .num n => n
  | .bool b => if b then 1 else 0
  | _ => 0

/-- The error taxonomy raised by the parsing/validation code
(all `ValueError` in the source, distinguished here by which check fired;
`attributeError` models `result.get` raising `AttributeError` when the
parsed JSON is not a dict). -/
inductive DebateError where
  | malformedResponse (text : String)
  | missingFields (fields : List String)
  | attributeError
  | judgeMissingFields
  | invalidVerdict
  | scoreNotInt
  | scoreOutOfRange
  | nmeScoreMismatch
deriving Repr, DecidableEq

/-- Index of the last occurrence of a character in a character list. -/
def lastIdxOf (c : Char) (cs : List Char) : Option Nat :=
  match cs.reverse.indexOf? c with
  | none => none
  | some k => some (cs.length - 1 - k)

/-- The span matched by `re.search` of the pattern
open-brace dot-star close-brace with `re.DOTALL`: `re.search` takes the
leftmost possible match start, so the match starts at the first open brace;
the greedy dot-star (which crosses newlines under DOTALL) then extends the
match to the last close brace of the whole text.  A match exists exactly
when some close brace occurs after the first open brace. -/
def braceSpan (text : String) : Option String :=
  let cs := text.toList
  match cs.indexOf? '{', lastIdxOf '}' cs with
  | some i, some j =>
      if i < j then some (String.mk ((cs.drop i).take (j - i + 1))) else none
  | _, _ => none

/-- The two-phase JSON extraction shared by the response parsers
(src/debate.py lines 294-309): first try to parse the entire response
text, then the first greedy DOTALL brace span; if both fail this is a
malformed-response error.  `L` is the external `json.loads` capability. -/
def extract_json (L : String → Option Json) (response_text : String) :
    Except DebateError Json :=
  match L response_text with
  | some result => .ok result
  | none =>
    match braceSpan response_text with
    | some sub =>
      match L sub with
      | some result => .ok result
      | none => .error (.malformedResponse response_text)
    | none => .error (.malformedResponse response_text)

/-- The required content keys of an argument (src/debate.py line 326). -/
def required_fields : List String := ["url", "quote", "context", "argument"]

/-- The required keys absent from a parsed response
(src/debate.py line 327). -/
def missing_fields (result : Json) : List String :=
  required_fields.filter (fun field => !(result.hasKey field))

/-- Dispatch on a parsed debater response object
(src/debate.py lines 311-338): a truthy `refused` flag yields a structured
refusal (with the generic placeholder reason when `reason` is absent)
regardless of other keys; otherwise all four content keys must be present,
and the result is stamped with the caller's position, model identity and
`refused = False`.  A non-dict parse result models the `AttributeError`
raised by `result.get`. -/
def dispatch_parsed (position model_name : String) (result : Json) :
    Except DebateError Json :=
  match result with
  | .obj _ =>
    if (result.getD "refused" (.bool false)).truthy then
      .ok (.obj [("position", .str position),
                 ("model", .str model_name),
                 ("refused", .bool true),
                 ("refusal_reason", result.getD "reason" (.str "No reason provided")),
                 ("url", .str ""),
                 ("quote", .str ""),
                 ("context", .str ""),
                 ("argument", .str "")])
    else
      if (missing_fields result).isEmpty then
        .ok (((result.setKey "position" (.str position)).setKey
                "model" (.str model_name)).setKey "refused" (.bool false))
      else
        .error (.missingFields (missing_fields result))
  | _ => .error .attributeError

/-- The response-parsing portion of `Debater.make_argument`
(src/debate.py lines 294-338): two-phase JSON extraction followed by
refusal / missing-fields dispatch. -/
def parse_debater_response (L : String → Option Json)
    (position model_name : String) (response_text : String) :
    Except DebateError Json :=
  match extract_json L response_text with
  | .error e => .error e
  | .ok result => dispatch_parsed position model_name result

/-- Membership of the parsed `verdict` value in the four-label enum
(src/debate.py lines 458-459); Python equality between a JSON value and a
`str` holds only for an equal string. -/
def is_valid_verdict : Json → Bool
  | .str s =>
      s == "supported" || s == "contradicted" || s == "misleading" ||
      s == "needs more evidence"
  | _ => false

/-- Python equality of the parsed verdict with `"needs more evidence"`. -/
def is_needs_more_evidence : Json → Bool
  | .str s => s == "needs more evidence"
  | _ => false

/-- The validation applied by `Judge.judge_debate` to a parsed judge
response (src/debate.py lines 454-472): the three keys must be present,
the verdict must be one of the four labels, the score must be an integer
in `range(-1, 11)`, and the verdict `needs more evidence` forces score
`-1`.  On success the parsed object itself is returned. -/
def validate_judge_response (result : Json) : Except DebateError Json :=
  if !(result.hasKey "verdict") || !(result.hasKey "score") ||
      !(result.hasKey "explanation") then
    .error .judgeMissingFields
  else if !(is_valid_verdict (result.getD "verdict" .null)) then
    .error .invalidVerdict
  else if !((result.getD "score" .null).isInt) then
    .error .scoreNotInt
  else if !((-1 ≤ (result.getD "score" .null).asInt) &&
            ((result.getD "score" .null).asInt ≤ 10)) then
    .error .scoreOutOfRange
  else if is_needs_more_evidence (result.getD "verdict" .null) &&
          (result.getD "score" .null).asInt != -1 then
    .error .nmeScoreMismatch
  else
    .ok result

/-- One debate-history dictionary as produced by `Debater.make_argument`
and consumed by the rest of the pipeline.  `refusal_reason := none` models
absence of the key (non-refused entries). -/
structure Entry where
  position : String
  model : String
  refused : Bool
  refusal_reason : Option String
  url : String
  quote : String
  context : String
  argument : String
deriving Repr, DecidableEq

/-- A validated judge response as used downstream
(keys `verdict`, `score`, `explanation`). -/
structure Verdict where
  verdict : String
  score : Int
  explanation : String
deriving Repr, DecidableEq

/-- One block of the recap shown to the next debater
(src/debate.py lines 278-282). -/
def history_block (i : Nat) (turn : Entry) : String :=
  "\nTurn " ++ toString i ++ " - " ++ turn.position.toUpper ++ ":\n" ++
  "Source: " ++ turn.url ++ "\n" ++
  "Quote: \"" ++ turn.quote ++ "\"\n" ++
  "Context: " ++ turn.context ++ "\n" ++
  "Argument: " ++ turn.argument ++ "\n"

/-- The recap loop of `Debater.make_argument` (src/debate.py lines
274-282): `enumerate(debate_history, 1)` numbers every entry, refused
entries are skipped but still advance the index. -/
def history_text_from (i : Nat) : List Entry → String
  | [] => ""
  | turn :: rest =>
      (if turn.refused then "" else history_block i turn) ++
      history_text_from (i + 1) rest

/-- The user prompt built by `Debater.make_argument`
(src/debate.py lines 271-286). -/
def build_user_prompt (debate_history : List Entry) : String :=
  if debate_history.isEmpty then
    "Make your opening argument. Provide your response in JSON format."
  else
    "Here is the debate history so far. Now make your next argument." ++
    ("\n\nDEBATE SO FAR:\n" ++ history_text_from 1 debate_history) ++
    "\n\nProvide your response in JSON format."

/-- One entry of the persisted `debate_transcript`
(src/debate.py lines 555-567).  The `refused` / `refusal_reason` keys are
added only for refusals; `refused := false, refusal_reason := none` models
their absence, matching the `.get` defaults of every consumer. -/
structure TranscriptEntry where
  turn : Nat
  debater : String
  argument : String
  source_url : String
  source_quote : String
  refused : Bool
  refusal_reason : Option String
deriving Repr, DecidableEq

/-- The transcript entry for the history entry with 1-based index
`turn_num` (src/debate.py lines 554-567).  The per-position
`turn_for_entry` computed at lines 540-552 of the source is dead code:
it is overwritten by the self-described simplified sequential rule
`turn = (turn_num + 1) // 2`, which alone is modelled here. -/
def transcript_entry (turn_num : Nat) (entry : Entry) : TranscriptEntry :=
  { turn := (turn_num + 1) / 2
    debater := entry.position
    argument := entry.argument
    source_url := entry.url
    source_quote := entry.quote
    refused := entry.refused
    refusal_reason := if entry.refused then some (entry.refusal_reason.getD "") else none }

/-- The transcript-building loop of `create_experiment_json`
(src/debate.py lines 537-569), with `turn_num` starting at 1. -/
def build_transcript : Nat → List Entry → List TranscriptEntry
  | _, [] => []
  | turn_num, entry :: rest =>
      transcript_entry turn_num entry :: build_transcript (turn_num + 1) rest

/-- The inline judge decision persisted inside an experiment record. -/
structure JudgeDecision where
  verdict : String
  score : Int
  reasoning : String
deriving Repr, DecidableEq

/-- The `experiment_config` block of an experiment record.
`judge_model := none` models a JSON `null` judge (deferred judging). -/
structure ExperimentConfig where
  timestamp : String
  pro_model : String
  con_model : String
  judge_model : Option String
  turns : Nat
  pro_went_first : Bool
deriving Repr, DecidableEq

/-- The standardized experiment JSON produced by `create_experiment_json`
and consumed by `SQLiteExperimentStore.save`.  `judge_decision := none`
models the deferred-judging case (key absent or `None`, both of which the
store's `experiment.get("judge_decision") or left` treatment collapses to
the empty dict). -/
structure ExperimentJson where
  claim : String
  topic : Option String
  claim_id : Option String
  gt_verdict : Option String
  gt_source : Option String
  gt_url : Option String
  config : ExperimentConfig
  debate_transcript : List TranscriptEntry
  judge_decision : Option JudgeDecision
  errors_or_refusals : List String
deriving Repr, DecidableEq

/-- `create_experiment_json` (src/debate.py lines 525-608), restricted to
the fields the store and its consumers read; model keys are carried as the
caller-supplied identifiers. -/
def create_experiment_json (claim : String)
    (topic claim_id gt_verdict gt_source gt_url : Option String)
    (debate_history : List Entry) (verdict : Verdict) (turns : Nat)
    (pro_model con_model judge_model : String) (pro_went_first : Bool)
    (timestamp : String) (errors : List String) : ExperimentJson :=
  { claim := claim
    topic := topic
    claim_id := claim_id
    gt_verdict := gt_verdict
    gt_source := gt_source
    gt_url := gt_url
    config :=
      { timestamp := timestamp
        pro_model := pro_model
        con_model := con_model
        judge_model := some judge_model
        turns := turns
        pro_went_first := pro_went_first }
    debate_transcript := build_transcript 1 debate_history
    judge_decision :=
      some { verdict := verdict.verdict, score := verdict.score,
             reasoning := verdict.explanation }
    errors_or_refusals := errors }

/-- One row of the `experiments` table
(src/scripts/core/experiment_store.py lines 87-119). -/
structure ExperimentRow where
  id : Nat
  claim : String
  claim_id : Option String
  topic : Option String
  timestamp : String
  pro_model : String
  con_model : String
  judge_model : String
  turns : Nat
  pro_went_first : Bool
  gt_verdict : Option String
  gt_source : Option String
  gt_url : Option String
  judge_verdict : String
  judge_score : Int
  judge_reasoning : String
  full_data : ExperimentJson
deriving Repr, DecidableEq

/-- One row of the `debate_turns` table
(src/scripts/core/experiment_store.py lines 136-149). -/
structure DebateTurnRow where
  experiment_id : Nat
  turn_number : Nat
  debater : String
  argument : String
  source_url : String
  source_quote : String
  refused : Bool
  refusal_reason : Option String
deriving Repr, DecidableEq

/-- One row of the `judgments` table
(src/scripts/core/experiment_store.py lines 157-169). -/
structure JudgmentRow where
  id : Nat
  experiment_id : Nat
  judge_model : String
  turns_considered : Nat
  verdict : String
  score : Option Int
  reasoning : String
deriving Repr, DecidableEq

/-- The SQLite database state: the three tables.  `AUTOINCREMENT` ids are
modelled as successive row counts (rows are never deleted by this code). -/
structure SQLiteExperimentStore where
  experiments : List ExperimentRow
  debate_turns : List DebateTurnRow
  judgments : List JudgmentRow
deriving Repr, DecidableEq

/-- A database with no rows. -/
def empty_store : SQLiteExperimentStore :=
  { experiments := [], debate_turns := [], judgments := [] }

/-- The `experiments` row inserted by `SQLiteExperimentStore.save`
(src/scripts/core/experiment_store.py lines 184-224): the
`experiment.get("judge_decision") or` empty-dict treatment makes the
deferred-judging case store `judge_verdict` as the empty string and
`judge_score` as `0` via the `.get` defaults. -/
def experiment_row (experiment_id : Nat) (experiment : ExperimentJson) :
    ExperimentRow :=
  let judge_decision := experiment.judge_decision
  { id := experiment_id
    claim := experiment.claim
    claim_id := experiment.claim_id
    topic := experiment.topic
    timestamp := experiment.config.timestamp
    pro_model := experiment.config.pro_model
    con_model := experiment.config.con_model
    judge_model := experiment.config.judge_model.getD ""
    turns := experiment.config.turns
    pro_went_first := experiment.config.pro_went_first
    gt_verdict := experiment.gt_verdict
    gt_source := experiment.gt_source
    gt_url := experiment.gt_url
    judge_verdict := (judge_decision.map (·.verdict)).getD ""
    judge_score := (judge_decision.map (·.score)).getD 0
    judge_reasoning := (judge_decision.map (·.reasoning)).getD ""
    full_data := experiment }

/-- `SQLiteExperimentStore.save` (src/scripts/core/experiment_store.py
lines 184-248): inserts one `experiments` row and one `debate_turns` row
per transcript entry inside a single transaction, and returns the fresh
experiment id. -/
def SQLiteExperimentStore.save (store : SQLiteExperimentStore)
    (experiment : ExperimentJson) : SQLiteExperimentStore × Nat :=
  let experiment_id := store.experiments.length + 1
  let row := experiment_row experiment_id experiment
  let turn_rows := experiment.debate_transcript.map (fun turn =>
    { experiment_id := experiment_id
      turn_number := turn.turn
      debater := turn.debater
      argument := turn.argument
      source_url := turn.source_url
      source_quote := turn.source_quote
      refused := turn.refused
      refusal_reason := turn.refusal_reason : DebateTurnRow })
  ({ store with
      experiments := store.experiments ++ [row]
      debate_turns := store.debate_turns ++ turn_rows }, experiment_id)

/-- `SQLiteExperimentStore.save_judgment`
(src/scripts/core/experiment_store.py lines 373-405): a plain INSERT into
`judgments`.  The table declares a FOREIGN KEY on `experiment_id`, but
Python's `sqlite3` leaves the SQLite `foreign_keys` pragma at its default
(off) and the source never enables it, and no application-level existence
check is made, so the insert succeeds for any `experiment_id`. -/
def SQLiteExperimentStore.save_judgment (store : SQLiteExperimentStore)
    (experiment_id : Nat) (judge_model : String) (turns_considered : Nat)
    (verdict : String) (score : Option Int) (reasoning : String) :
    SQLiteExperimentStore × Nat :=
  let judgment_id := store.judgments.length + 1
  ({ store with
      judgments := store.judgments ++
        [{ id := judgment_id
           experiment_id := experiment_id
           judge_model := judge_model
           turns_considered := turns_considered
           verdict := verdict
           score := score
           reasoning := reasoning }] }, judgment_id)

/-- The AND-combined filters accepted by `SQLiteExperimentStore.query`
(src/scripts/core/experiment_store.py lines 264-316); `none` models an
absent filter key. -/
structure QueryFilters where
  topic : Option String := none
  judge_verdict : Option String := none
  min_score : Option Int := none
  max_score : Option Int := none
  pro_model : Option String := none
  con_model : Option String := none
  judge_model : Option String := none
  gt_verdict : Option String := none
deriving Repr, DecidableEq

/-- The WHERE clause built by `query`: each present filter is an equality
or range predicate on the row column (SQL `column = value` on a NULL
column is not satisfied, which `some`-equality models). -/
def matches_filters (filters : QueryFilters) (row : ExperimentRow) : Bool :=
  (match filters.topic with
   | none => true
   | some t => row.topic == some t) &&
  (match filters.judge_verdict with
   | none => true
   | some v => row.judge_verdict == v) &&
  (match filters.min_score with
   | none => true
   | some m => m ≤ row.judge_score) &&
  (match filters.max_score with
   | none => true
   | some m => row.judge_score ≤ m) &&
  (match filters.pro_model with
   | none => true
   | some m => row.pro_model == m) &&
  (match filters.con_model with
   | none => true
   | some m => row.con_model == m) &&
  (match filters.judge_model with
   | none => true
   | some m => row.judge_model == m) &&
  (match filters.gt_verdict with
   | none => true
   | some v => row.gt_verdict == some v)

/-- `SQLiteExperimentStore.query` (src/scripts/core/experiment_store.py
lines 264-316), returning the `full_data` of every matching row (the
ORDER BY timestamp DESC reordering is elided; row membership is
unaffected). -/
def SQLiteExperimentStore.query (store : SQLiteExperimentStore)
    (filters : QueryFilters) : List ExperimentJson :=
  (store.experiments.filter (matches_filters filters)).map (·.full_data)

/-- A debater as the orchestrator sees it: the composite of prompt
building, the external `generate` call and `make_argument`'s response
parsing, abstracted as one fallible capability from the accumulated
history to a validated entry (`.error` models the `RuntimeError` /
`ValueError` exceptions on which `run_debate` calls `sys.exit(1)`). -/
abbrev DebaterFn := List Entry → Except String Entry

/-- A judge as the orchestrator sees it, abstracted the same way. -/
abbrev JudgeFn := List Entry → Except String Verdict

/-- The round loop of `run_debate` (src/debate.py lines 661-707): for each
round the first debater is invoked on the accumulated history and its
entry appended unconditionally; a refusal sets `debate_shortened`, which
is checked immediately after each debater's turn and breaks out of the
inner loop and then the outer loop.  The returned flag is
`debate_shortened`. -/
def debate_round_loop (first_fn second_fn : DebaterFn) :
    Nat → List Entry → Except String (List Entry × Bool)
  | 0, debate_history => .ok (debate_history, false)
  | turns_left + 1, debate_history =>
    match first_fn debate_history with
    | .error e => .error e
    | .ok arg =>
      let debate_history := debate_history ++ [arg]
      if arg.refused then
        .ok (debate_history, true)
      else
        match second_fn debate_history with
        | .error e => .error e
        | .ok arg2 =>
          let debate_history := debate_history ++ [arg2]
          if arg2.refused then
            .ok (debate_history, true)
          else
            debate_round_loop first_fn second_fn turns_left debate_history

/-- `run_debate` (src/debate.py lines 611-736): run the round loop in the
order fixed by `pro_went_first`, invoke the judge exactly once over the
accumulated history, and only then build the experiment JSON and save it.
Any debater or judge error exits before the store is ever touched
(`sys.exit(1)`), so the database state is returned unchanged on the error
paths.  The `errors` list stays empty on every path of the source. -/
def run_debate (pro_fn con_fn : DebaterFn) (judge_fn : JudgeFn)
    (claim : String) (turns : Nat)
    (pro_model con_model judge_model : String) (pro_went_first : Bool)
    (topic claim_id gt_verdict gt_source gt_url : Option String)
    (timestamp : String) (store : SQLiteExperimentStore) :
    Except String Nat × SQLiteExperimentStore :=
  let (first_fn, second_fn) :=
    if pro_went_first then (pro_fn, con_fn) else (con_fn, pro_fn)
  match debate_round_loop first_fn second_fn turns [] with
  | .error e => (.error e, store)
  | .ok (debate_history, _debate_shortened) =>
    match judge_fn debate_history with
    | .error e => (.error e, store)
    | .ok verdict =>
      let experiment_data := create_experiment_json claim topic claim_id
        gt_verdict gt_source gt_url debate_history verdict turns
        pro_model con_model judge_model pro_went_first timestamp []
      let (store', experiment_id) := store.save experiment_data
      (.ok experiment_id, store')

/-- The module-level `MODELS` registry (src/debate.py lines 40-61),
restricted to key, display name and provider model id. -/
def MODELS : List (String × String × String) :=
  [("claude", "Claude Sonnet 4.5", "claude-sonnet-4-5-20250929"),
   ("gpt4", "GPT-4", "gpt-4-turbo-preview"),
   ("gemini", "Gemini 2.5 Flash", "gemini-2.5-flash"),
   ("grok", "Grok 3", "grok-3")]

/-- The provider model id looked up by key. -/
def model_id (key : String) : String :=
  match MODELS.lookup key with
  | some (_, id) => id
  | none => ""

/-- `truncate_debate_transcript`
(src/scripts/analysis/judge_existing_debates.py lines 64-76): keep exactly
the entries whose recorded `turn` number is at most the cutoff. -/
def truncate_debate_transcript (full_transcript : List TranscriptEntry)
    (max_turns : Nat) : List TranscriptEntry :=
  full_transcript.filter (fun entry => entry.turn ≤ max_turns)

/-- The Debater-compatible history view re-synthesized from a stored
transcript entry (src/scripts/analysis/judge_existing_debates.py lines
102-114): the stored transcript has no `context`, so the empty string is
substituted; the `model` key is likewise absent from the source dict and
unread by the Judge (modelled as the empty string). -/
def stored_entry_to_history (entry : TranscriptEntry) : Entry :=
  { position := entry.debater
    model := ""
    refused := entry.refused
    refusal_reason :=
      if entry.refused then some (entry.refusal_reason.getD "") else none
    url := entry.source_url
    quote := entry.source_quote
    context := ""
    argument := entry.argument }

/-- The external judge capability used by the retrospective engine: judge
model key and claim to a verdict or an opaque error (any exception raised
by `Judge(judge_model)` construction or `judge_debate`). -/
abbrev RetroJudgeFn := String → String → List Entry → Except String Verdict

/-- `judge_at_turn_cutoff` (src/scripts/analysis/judge_existing_debates.py
lines 79-123): truncate, bail out with a warning (and no judge call) when
nothing is left, otherwise re-synthesize the history view and invoke the
judge once, catching any error.  The returned flag records whether the
judge was invoked. -/
def judge_at_turn_cutoff (judge_fn : RetroJudgeFn) (claim : String)
    (transcript : List TranscriptEntry) (judge_model : String)
    (turns : Nat) : Option Verdict × Bool :=
  let truncated := truncate_debate_transcript transcript turns
  if truncated.isEmpty then
    (none, false)
  else
    let debate_history := truncated.map stored_entry_to_history
    match judge_fn judge_model claim debate_history with
    | .ok verdict => (some verdict, true)
    | .error _ => (none, true)

/-- The body of `process_experiment`'s inner judge loop
(src/scripts/analysis/judge_existing_debates.py lines 156-177): attempt
one judgment for the pair and save the verdict via `save_judgment` when
one was obtained, recording the judge invocation in the call log. -/
def process_pair_step (judge_fn : RetroJudgeFn) (experiment_id : Nat)
    (claim : String) (transcript : List TranscriptEntry) (turns : Nat)
    (acc : SQLiteExperimentStore × Nat × List (Nat × String))
    (judge_model : String) :
    SQLiteExperimentStore × Nat × List (Nat × String) :=
  let (store, created, calls) := acc
  let judge_id := model_id judge_model
  let (verdict?, invoked) :=
    judge_at_turn_cutoff judge_fn claim transcript judge_model turns
  let calls := if invoked then calls ++ [(turns, judge_model)] else calls
  match verdict? with
  | some verdict =>
    let (store', _judgment_id) := store.save_judgment experiment_id
      judge_id turns verdict.verdict (some verdict.score)
      verdict.explanation
    (store', created + 1, calls)
  | none => (store, created, calls)

/-- `process_experiment` (src/scripts/analysis/judge_existing_debates.py
lines 126-179): for every requested cutoff not exceeding the record's
configured `turns`, and every judge model, run `process_pair_step`.
Besides the resulting database state and the `judgments_created` counter,
the embedding also returns the list of `(cutoff, judge_model)` pairs for
which the judge was actually invoked.  The `skip_existing` parameter is
accepted but never read, as in the source. -/
def process_experiment (judge_fn : RetroJudgeFn) (experiment_id : Nat)
    (experiment_data : ExperimentJson) (judge_models : List String)
    (turns_range : List Nat) (store : SQLiteExperimentStore)
    (skip_existing : Bool) :
    SQLiteExperimentStore × Nat × List (Nat × String) :=
  let claim := experiment_data.claim
  let transcript := experiment_data.debate_transcript
  let max_turns := experiment_data.config.turns
  turns_range.foldl (fun acc turns =>
    if turns > max_turns then
      acc
    else
      judge_models.foldl
        (process_pair_step judge_fn experiment_id claim transcript turns)
        acc) (store, 0, [])

/-! Spec-side definitions (written from the claims, for comparison with
the embedded code) and concrete fixtures used to evaluate the embedding. -/

/-- Spec-side acceptance condition of the amended C3 claim: all three keys
present, verdict in the four-label enum, score an integer in `[-1, 10]`,
and the `needs more evidence` verdict forces score `-1` (one direction
only). -/
def judge_accepts_spec (result : Json) : Bool :=
  result.hasKey "verdict" && result.hasKey "score" &&
  result.hasKey "explanation" &&
  is_valid_verdict (result.getD "verdict" .null) &&
  (result.getD "score" .null).isInt &&
  (-1 ≤ (result.getD "score" .null).asInt) &&
  ((result.getD "score" .null).asInt ≤ 10) &&
  (!(is_needs_more_evidence (result.getD "verdict" .null)) ||
    (result.getD "score" .null).asInt == -1)

/-- The id-independent content of a judgments row. -/
def JudgmentRow.content (r : JudgmentRow) :
    Nat × String × Nat × String × Option Int × String :=
  (r.experiment_id, r.judge_model, r.turns_considered, r.verdict, r.score,
   r.reasoning)

/-- The `(cutoff, judge_model)` pairs `process_experiment` iterates over
after the `turns > max_turns` skip, in iteration order. -/
def eligible_pairs (experiment_data : ExperimentJson)
    (judge_models : List String) (turns_range : List Nat) :
    List (Nat × String) :=
  (turns_range.filter (fun turns => !(turns > experiment_data.config.turns))).flatMap
    (fun turns => judge_models.map (fun judge_model => (turns, judge_model)))

/-- Spec-side description (amended C6 claim) of the judgment content a
single `(cutoff, judge_model)` pair contributes: none when the truncated
transcript is empty or the judge call errors, otherwise exactly the tuple
handed to `save_judgment`. -/
def expected_pair_judgment (judge_fn : RetroJudgeFn) (experiment_id : Nat)
    (experiment_data : ExperimentJson) (p : Nat × String) :
    Option (Nat × String × Nat × String × Option Int × String) :=
  let truncated :=
    truncate_debate_transcript experiment_data.debate_transcript p.1
  if truncated.isEmpty then none
  else
    match judge_fn p.2 experiment_data.claim
        (truncated.map stored_entry_to_history) with
    | .ok v => some (experiment_id, model_id p.2, p.1, v.verdict,
        some v.score, v.explanation)
    | .error _ => none

/-- Spec-side description (amended C6 claim) of whether a pair triggers a
judge invocation: exactly when the truncated transcript is nonempty. -/
def judge_invoked_for (experiment_data : ExperimentJson)
    (p : Nat × String) : Bool :=
  !(truncate_debate_transcript experiment_data.debate_transcript p.1).isEmpty

/-- One `save_judgment` call per listed judgment content, in order
(spec-side helper describing the cumulative effect of a batch). -/
def append_judgments (s : SQLiteExperimentStore) :
    List (Nat × String × Nat × String × Option Int × String) →
    SQLiteExperimentStore
  | [] => s
  | (eid, jm, tc, v, sc, r) :: rest =>
      append_judgments (s.save_judgment eid jm tc v sc r).1 rest

/-- The relation between two histories that differ only at refused
entries, and there only in the content fields (`refusal_reason` and the
emptied `url`/`quote`/`context`/`argument`): the entries are equal, or
both are refusals of the same side and model. -/
def refusal_blind_rel (e1 e2 : Entry) : Prop :=
  e1 = e2 ∨
  (e1.refused = true ∧ e2.refused = true ∧ e1.position = e2.position ∧
   e1.model = e2.model)

/-- A substantive pro entry (fixture). -/
def pro_ok_entry : Entry :=
  { position := "pro", model := "Claude Sonnet 4.5", refused := false
    refusal_reason := none, url := "https://example.com/pro"
    quote := "pro quote", context := "pro context"
    argument := "pro argument" }

/-- A substantive con entry (fixture). -/
def con_ok_entry : Entry :=
  { position := "con", model := "GPT-4", refused := false
    refusal_reason := none, url := "https://example.com/con"
    quote := "con quote", context := "con context"
    argument := "con argument" }

/-- A pro refusal entry, as `make_argument` shapes one (fixture). -/
def pro_refusal_entry : Entry :=
  { position := "pro", model := "Claude Sonnet 4.5", refused := true
    refusal_reason := some "ethical concerns", url := "", quote := ""
    context := "", argument := "" }

/-- A pro debater that argues in round 1 and refuses in round 2 (the
history holds 2 entries when its round-2 call is made). -/
def refusing_round2_pro : DebaterFn := fun debate_history =>
  if debate_history.length == 2 then .ok pro_refusal_entry
  else .ok pro_ok_entry

/-- A pro debater that always argues (fixture). -/
def always_pro : DebaterFn := fun _ => .ok pro_ok_entry

/-- A con debater that always argues (fixture). -/
def always_con : DebaterFn := fun _ => .ok con_ok_entry

/-- A judge that always returns a supported verdict (fixture). -/
def always_supported_judge : JudgeFn :=
  fun _ => .ok { verdict := "supported", score := 7, explanation := "solid" }

/-- A judge that always fails (fixture). -/
def failing_judge : JudgeFn := fun _ => .error "boom"

/-- A retrospective judge capability that always succeeds (fixture). -/
def always_ok_retro_judge : RetroJudgeFn :=
  fun _ _ _ => .ok { verdict := "supported", score := 7, explanation := "solid" }

/-- A parsed judge response with verdict `supported` and score `-1`
(fixture for C3). -/
def nme_mismatch_response : Json :=
  .obj [("verdict", .str "supported"), ("score", .num (-1)),
        ("explanation", .str "score sentinel with non-sentinel verdict")]

/-- A `json.loads` stub that parses the fixed response text `RESP` to a
refusal object carrying an extra key (fixture for C4; the theorems
quantify over the parse capability). -/
def c4_loads : String → Option Json := fun s =>
  if s == "RESP" then
    some (.obj [("refused", .bool true), ("note", .num 3)])
  else none

/-- A persisted record with one round-1 entry and `turns = 1`, no inline
judge decision (fixture). -/
def one_turn_record : ExperimentJson :=
  { claim := "Coffee is good for your health"
    topic := none, claim_id := none
    gt_verdict := none, gt_source := none, gt_url := none
    config :=
      { timestamp := "2025-01-01T00:00:00Z"
        pro_model := "claude-sonnet-4-5-20250929"
        con_model := "gpt-4-turbo-preview"
        judge_model := none, turns := 1, pro_went_first := true }
    debate_transcript :=
      [{ turn := 1, debater := "pro", argument := "pro argument"
         source_url := "https://example.com/pro"
         source_quote := "pro quote", refused := false
         refusal_reason := none }]
    judge_decision := none
    errors_or_refusals := [] }

/-- The same record with a genuine inline zero-score decision
(fixture for C9). -/
def zero_scored_record : ExperimentJson :=
  { one_turn_record with
      judge_decision :=
        some { verdict := "contradicted", score := 0
               reasoning := "completely contradicted" } }

/-- The 12-entry alternating no-refusal history of a `turns = 6` debate
(fixture for C5's witness). -/
def hist12 : List Entry :=
  [pro_ok_entry, con_ok_entry, pro_ok_entry, con_ok_entry,
   pro_ok_entry, con_ok_entry, pro_ok_entry, con_ok_entry,
   pro_ok_entry, con_ok_entry, pro_ok_entry, con_ok_entry]

/-! Theorems. -/

/-- C1 (code bug evaluation): with `turns = 3`, pro going first, pro
arguing in round 1 and refusing in round 2, and every other call
succeeding, `run_debate`'s round loop stops at the refusal itself: the
accumulated history is exactly round-1 pro, round-1 con, round-2 pro
refusal — the opponent's same-round response promised by the claim (and
by the source's own comment at src/debate.py line 700, "allow opponent
one response then stop") never happens, and the persisted transcript has
3 entries, not 4. -/
theorem c1_refusal_ends_transcript_immediately :
    debate_round_loop refusing_round2_pro always_con 3 [] =
      .ok ([pro_ok_entry, con_ok_entry, pro_refusal_entry], true) ∧
    (run_debate refusing_round2_pro always_con always_supported_judge
        "Coffee is good for your health" 3 "claude" "gpt4" "gemini" true
        none none none none none "2025-01-01T00:00:00Z"
        empty_store).2.experiments.map
      (fun r => r.full_data.debate_transcript.length) = [3] := by
  exact ⟨rfl, rfl⟩

/-- C7 (code bug evaluation): `save_judgment` against a database with no
experiment rows and the dangling `experiment_id = 999` persists the
judgment and returns a fresh judgment id — no error is surfaced, because
the SQLite `foreign_keys` pragma is never enabled and no application-level
existence check is made. -/
theorem c7_dangling_judgment_persisted :
    (empty_store.save_judgment 999 "claude-sonnet-4-5-20250929" 3
        "supported" (some 7) "reasoning").1.judgments =
      [{ id := 1, experiment_id := 999
         judge_model := "claude-sonnet-4-5-20250929", turns_considered := 3
         verdict := "supported", score := some 7
         reasoning := "reasoning" }] ∧
    (empty_store.save_judgment 999 "claude-sonnet-4-5-20250929" 3
        "supported" (some 7) "reasoning").2 = 1 ∧
    empty_store.experiments = [] := by
  exact ⟨rfl, rfl, rfl⟩

/-- C10: `process_experiment` never reads its `skip_existing` parameter —
its entire result (database state, judgments-created count, judge
invocations) is identical for any two values of the flag. -/
theorem c10_skip_existing_unused (judge_fn : RetroJudgeFn)
    (experiment_id : Nat) (experiment_data : ExperimentJson)
    (judge_models : List String) (turns_range : List Nat)
    (store : SQLiteExperimentStore) (b1 b2 : Bool) :
    process_experiment judge_fn experiment_id experiment_data judge_models
        turns_range store b1 =
    process_experiment judge_fn experiment_id experiment_data judge_models
        turns_range store b2 := rfl

/-- C3 (counterexample): the parsed response with verdict `supported` and
score `-1` is accepted by `Judge.judge_debate`'s validation, although the
claim requires every non-`needs more evidence` verdict to carry a score
in `[0, 10]` and any violating input to be rejected. -/
theorem c3_cex_reverse_direction_unchecked :
    validate_judge_response nme_mismatch_response =
      .ok nme_mismatch_response ∧
    is_needs_more_evidence (nme_mismatch_response.getD "verdict" .null) =
      false ∧
    (nme_mismatch_response.getD "score" .null).asInt = -1 := by
  exact ⟨rfl, rfl, rfl⟩

/-- C3 (amended): `Judge.judge_debate` accepts a parsed judge response iff
the keys `verdict`, `score`, `explanation` are present, the verdict is one
of the four enum labels, the score is an integer in `[-1, 10]`, and —
one direction only — verdict `needs more evidence` forces score `-1`; a
non-sentinel verdict with the `-1` sentinel score is accepted, not
rejected. -/
theorem c3_validation_is_one_directional (result : Json) :
    (validate_judge_response result).isOk = judge_accepts_spec result := by
  unfold validate_judge_response judge_accepts_spec
  split_ifs with h1 h2 h3 h4 h5 <;>
    simp_all [Except.isOk, Except.toBool, Bool.and_assoc] <;>
    first
      | tauto
      | (intros; simp_all; done)
      | (intro hle1 hle2; exfalso; rcases h4 with h | h <;> omega)
      | (cases hb : is_needs_more_evidence (result.getD "verdict" Json.null)
         · exact Or.inl rfl
         · exact Or.inr (h5 hb))

/-- C2: when every debate turn succeeded (the round loop returned a
history), a failing judge call makes `run_debate` abort with the error
and the returned database state is exactly the input state — `save` is
never invoked; on the success path the database gains exactly one
experiment row, appended at the end, and its fresh id is returned. -/
theorem c2_all_or_nothing_persistence (pro_fn con_fn : DebaterFn)
    (judge_fn : JudgeFn) (claim : String) (turns : Nat)
    (pro_model con_model judge_model : String) (pro_went_first : Bool)
    (topic claim_id gt_verdict gt_source gt_url : Option String)
    (timestamp : String) (store : SQLiteExperimentStore)
    (debate_history : List Entry) (debate_shortened : Bool)
    (hturns : debate_round_loop (if pro_went_first then pro_fn else con_fn)
        (if pro_went_first then con_fn else pro_fn) turns [] =
      .ok (debate_history, debate_shortened)) :
    (∀ e, judge_fn debate_history = .error e →
      run_debate pro_fn con_fn judge_fn claim turns pro_model con_model
          judge_model pro_went_first topic claim_id gt_verdict gt_source
          gt_url timestamp store = (.error e, store)) ∧
    (∀ v, judge_fn debate_history = .ok v →
      (run_debate pro_fn con_fn judge_fn claim turns pro_model con_model
          judge_model pro_went_first topic claim_id gt_verdict gt_source
          gt_url timestamp store).2.experiments =
        store.experiments ++
          [experiment_row (store.experiments.length + 1)
            (create_experiment_json claim topic claim_id gt_verdict
              gt_source gt_url debate_history v turns pro_model con_model
              judge_model pro_went_first timestamp [])] ∧
      (run_debate pro_fn con_fn judge_fn claim turns pro_model con_model
          judge_model pro_went_first topic claim_id gt_verdict gt_source
          gt_url timestamp store).1 =
        .ok (store.experiments.length + 1)) := by
  cases pro_went_first <;>
    simp only [Bool.false_eq_true, if_false, if_true, reduceIte] at hturns <;>
    constructor <;>
    · intro x hx
      simp [run_debate, hturns, hx, SQLiteExperimentStore.save]

/-- C2 witness: one clean round, judge fails — the run errors out and the
empty database stays empty. -/
theorem c2_witness :
    run_debate always_pro always_con failing_judge
        "Coffee is good for your health" 1 "claude" "gpt4" "gemini" true
        none none none none none "2025-01-01T00:00:00Z" empty_store =
      (.error "boom", empty_store) := by
  exact (c2_all_or_nothing_persistence always_pro always_con failing_judge
    "Coffee is good for your health" 1 "claude" "gpt4" "gemini" true
    none none none none none "2025-01-01T00:00:00Z" empty_store
    [pro_ok_entry, con_ok_entry] false rfl).1 "boom" rfl

/-- C4: for every parse capability and model response text,
`make_argument`'s response parsing first uses the whole-text parse, then on
failure the first greedy DOTALL brace span, and errors as malformed when
both fail; a parsed object with a truthy `refused` flag yields the
structured refusal (placeholder reason when `reason` is absent) regardless
of its other keys, while a non-refusal object errors exactly when one of
`url`/`quote`/`context`/`argument` is absent and is otherwise returned
stamped with the caller's position, model identity and `refused = False`. -/
theorem c4_response_parsing_contract (L : String → Option Json)
    (position model_name response_text : String) :
    (∀ j, L response_text = some j →
      parse_debater_response L position model_name response_text =
        dispatch_parsed position model_name j) ∧
    (∀ sub j, L response_text = none → braceSpan response_text = some sub →
      L sub = some j →
      parse_debater_response L position model_name response_text =
        dispatch_parsed position model_name j) ∧
    (L response_text = none → (braceSpan response_text).bind L = none →
      parse_debater_response L position model_name response_text =
        .error (.malformedResponse response_text)) ∧
    (∀ fields,
      ((Json.obj fields).getD "refused" (.bool false)).truthy = true →
      dispatch_parsed position model_name (.obj fields) =
        .ok (.obj [("position", .str position),
                   ("model", .str model_name),
                   ("refused", .bool true),
                   ("refusal_reason",
                     (Json.obj fields).getD "reason"
                       (.str "No reason provided")),
                   ("url", .str ""),
                   ("quote", .str ""),
                   ("context", .str ""),
                   ("argument", .str "")])) ∧
    (∀ fields,
      ((Json.obj fields).getD "refused" (.bool false)).truthy = false →
      (missing_fields (.obj fields) ≠ [] →
        dispatch_parsed position model_name (.obj fields) =
          .error (.missingFields (missing_fields (.obj fields)))) ∧
      (missing_fields (.obj fields) = [] →
        dispatch_parsed position model_name (.obj fields) =
          .ok ((((Json.obj fields).setKey "position"
              (.str position)).setKey "model"
              (.str model_name)).setKey "refused" (.bool false)))) := by
  refine ⟨?_, ?_, ?_, ?_, ?_⟩
  · intro j hj
    simp [parse_debater_response, extract_json, hj]
  · intro sub j hnone hspan hj
    simp [parse_debater_response, extract_json, hnone, hspan, hj]
  · intro hnone hboth
    rcases hspan : braceSpan response_text with _ | sub <;>
      simp_all [parse_debater_response, extract_json]
  · intro fields htruthy
    simp [dispatch_parsed, htruthy]
  · intro fields htruthy
    constructor <;> intro hmiss <;>
      simp_all [dispatch_parsed]

/-- C4 witness: with a parse capability that reads the fixed text as a
refusal object carrying an extra key, the parser returns the structured
refusal. -/
theorem c4_witness :
    parse_debater_response c4_loads "pro" "Claude Sonnet 4.5" "RESP" =
      .ok (.obj [("position", .str "pro"),
                 ("model", .str "Claude Sonnet 4.5"),
                 ("refused", .bool true),
                 ("refusal_reason", .str "No reason provided"),
                 ("url", .str ""),
                 ("quote", .str ""),
                 ("context", .str ""),
                 ("argument", .str "")]) := by
  have h := c4_response_parsing_contract c4_loads "pro"
    "Claude Sonnet 4.5" "RESP"
  have h1 := h.1 (.obj [("refused", .bool true), ("note", .num 3)]) rfl
  have h4 := h.2.2.2.1 [("refused", .bool true), ("note", .num 3)] rfl
  rw [h1, h4]
  rfl

/-- The recap text is identical on histories related pointwise by
`refusal_blind_rel`, at every starting index. -/
theorem history_text_from_congr (l1 l2 : List Entry)
    (h : List.Forall₂ refusal_blind_rel l1 l2) :
    ∀ i, history_text_from i l1 = history_text_from i l2 := by
  induction h with
  | nil => intro i; rfl
  | cons hd _ ih =>
    intro i
    rcases hd with he | ⟨hr1, hr2, _, _⟩
    · simp [history_text_from, he, ih]
    · simp [history_text_from, hr1, hr2, ih]

/-- C8: the user prompt `Debater.make_argument` builds never depends on
the content fields of refused prior turns — two histories that agree
except at refused entries (which may differ in refusal reason and the
emptied content fields) yield the identical prompt, because the recap loop
skips refused entries entirely. -/
theorem c8_opponent_blind_to_refusal (h1 h2 : List Entry)
    (hrel : List.Forall₂ refusal_blind_rel h1 h2) :
    build_user_prompt h1 = build_user_prompt h2 := by
  have hlen : h1.length = h2.length := hrel.length_eq
  unfold build_user_prompt
  rw [history_text_from_congr h1 h2 hrel 1]
  cases h1 <;> cases h2 <;> simp_all

/-- C8 witness: changing a refusal's recorded reason (and its emptied
content fields) leaves the next debater's prompt unchanged. -/
theorem c8_witness :
    build_user_prompt [con_ok_entry, pro_refusal_entry] =
      build_user_prompt [con_ok_entry,
        { pro_refusal_entry with
            refusal_reason := some "a totally different reason"
            url := "leak" }] := by
  exact c8_opponent_blind_to_refusal _ _
    (.cons (Or.inl rfl) (.cons (Or.inr ⟨rfl, rfl, rfl, rfl⟩) .nil))

/-- C9: saving an experiment whose `judge_decision` is absent still
inserts the record, with `judge_verdict` stored as the empty string and
`judge_score` as `0` (not NULL); consequently the row satisfies a
`min_score`/`max_score` query filter exactly when `min ≤ 0 ≤ max`, which
is precisely the behavior of a record judged inline with a genuine score
of `0`. -/
theorem c9_deferred_judging_scores_as_zero
    (store : SQLiteExperimentStore) (experiment zero_exp : ExperimentJson)
    (d : JudgeDecision) (eid zid : Nat)
    (hdef : experiment.judge_decision = none)
    (hz : zero_exp.judge_decision = some d) (hd0 : d.score = 0) :
    (store.save experiment).1.experiments =
      store.experiments ++
        [experiment_row (store.experiments.length + 1) experiment] ∧
    (experiment_row eid experiment).judge_verdict = "" ∧
    (experiment_row eid experiment).judge_score = 0 ∧
    (∀ mn mx : Int,
      matches_filters { min_score := some mn, max_score := some mx }
          (experiment_row eid experiment) =
        (decide (mn ≤ 0) && decide (0 ≤ mx)) ∧
      matches_filters { min_score := some mn, max_score := some mx }
          (experiment_row zid zero_exp) =
        matches_filters { min_score := some mn, max_score := some mx }
          (experiment_row eid experiment)) := by
  refine ⟨rfl, ?_, ?_, ?_⟩
  · simp [experiment_row, hdef]
  · simp [experiment_row, hdef]
  · intro mn mx
    constructor <;> simp [matches_filters, experiment_row, hdef, hz, hd0]

/-- C9 witness: the concrete deferred-judging record is stored with empty
verdict and score `0`, and matches the score window `[-2, 4]` exactly as
the genuinely zero-scored record does. -/
theorem c9_witness :
    matches_filters { min_score := some (-2), max_score := some 4 }
        (experiment_row 1 one_turn_record) = true ∧
    matches_filters { min_score := some (-2), max_score := some 4 }
        (experiment_row 2 zero_scored_record) = true := by
  have h := c9_deferred_judging_scores_as_zero empty_store one_turn_record
    zero_scored_record
    { verdict := "contradicted", score := 0
      reasoning := "completely contradicted" } 1 2 rfl rfl rfl
  have h4 := (h.2.2.2 (-2) 4)
  exact ⟨by rw [h4.1]; rfl, by rw [h4.2, h4.1]; rfl⟩

/-- C5: for a `turns = 6` debate with no refusal (12 alternating entries,
pro first), the transcript built by `create_experiment_json` numbers the
1-based k-th entry with turn `(k + 1) / 2 = ceil(k / 2)`, and truncating
by recorded turn number at every cutoff `c` in 1..6 keeps exactly `2 c`
entries, exactly `c` from pro and `c` from con. -/
theorem c5_truncation_correctness (claim : String)
    (topic claim_id gt_verdict gt_source gt_url : Option String)
    (verdict : Verdict) (pro_model con_model judge_model : String)
    (pro_went_first : Bool) (timestamp : String) (errors : List String)
    (e1 e2 e3 e4 e5 e6 e7 e8 e9 e10 e11 e12 : Entry)
    (p1 : e1.position = "pro") (p2 : e2.position = "con")
    (p3 : e3.position = "pro") (p4 : e4.position = "con")
    (p5 : e5.position = "pro") (p6 : e6.position = "con")
    (p7 : e7.position = "pro") (p8 : e8.position = "con")
    (p9 : e9.position = "pro") (p10 : e10.position = "con")
    (p11 : e11.position = "pro") (p12 : e12.position = "con") :
    ((create_experiment_json claim topic claim_id gt_verdict gt_source
        gt_url [e1, e2, e3, e4, e5, e6, e7, e8, e9, e10, e11, e12]
        verdict 6 pro_model con_model judge_model pro_went_first timestamp
        errors).debate_transcript.map (·.turn) =
      [1, 1, 2, 2, 3, 3, 4, 4, 5, 5, 6, 6]) ∧
    ∀ c, 1 ≤ c → c ≤ 6 →
      (truncate_debate_transcript
          (create_experiment_json claim topic claim_id gt_verdict gt_source
            gt_url [e1, e2, e3, e4, e5, e6, e7, e8, e9, e10, e11, e12]
            verdict 6 pro_model con_model judge_model pro_went_first
            timestamp errors).debate_transcript c).length = 2 * c ∧
      ((truncate_debate_transcript
          (create_experiment_json claim topic claim_id gt_verdict gt_source
            gt_url [e1, e2, e3, e4, e5, e6, e7, e8, e9, e10, e11, e12]
            verdict 6 pro_model con_model judge_model pro_went_first
            timestamp errors).debate_transcript c).filter
        (fun t => t.debater == "pro")).length = c ∧
      ((truncate_debate_transcript
          (create_experiment_json claim topic claim_id gt_verdict gt_source
            gt_url [e1, e2, e3, e4, e5, e6, e7, e8, e9, e10, e11, e12]
            verdict 6 pro_model con_model judge_model pro_went_first
            timestamp errors).debate_transcript c).filter
        (fun t => t.debater == "con")).length = c := by
  constructor
  · rfl
  · intro c hc1 hc6
    interval_cases c <;>
      refine ⟨rfl, ?_, ?_⟩ <;>
      simp [create_experiment_json, build_transcript, transcript_entry,
        truncate_debate_transcript, p1, p2, p3, p4, p5, p6, p7, p8, p9,
        p10, p11, p12]

/-- C5 witness: the concrete 12-entry alternating history, truncated at
cutoff 4, keeps exactly 8 entries, 4 pro and 4 con. -/
theorem c5_witness :
    (truncate_debate_transcript
        (create_experiment_json "Coffee is good for your health" none none
          none none none hist12
          { verdict := "supported", score := 7, explanation := "solid" } 6
          "claude" "gpt4" "gemini" true "2025-01-01T00:00:00Z"
          []).debate_transcript 4).length = 2 * 4 := by
  exact ((c5_truncation_correctness "Coffee is good for your health" none
    none none none none
    { verdict := "supported", score := 7, explanation := "solid" }
    "claude" "gpt4" "gemini" true "2025-01-01T00:00:00Z" []
    pro_ok_entry con_ok_entry pro_ok_entry con_ok_entry pro_ok_entry
    con_ok_entry pro_ok_entry con_ok_entry pro_ok_entry con_ok_entry
    pro_ok_entry con_ok_entry rfl rfl rfl rfl rfl rfl rfl rfl rfl rfl rfl
    rfl).2 4 (by decide) (by decide)).1

/-- `append_judgments` distributes over list append. -/
theorem append_judgments_append (s : SQLiteExperimentStore)
    (xs ys : List (Nat × String × Nat × String × Option Int × String)) :
    append_judgments s (xs ++ ys) =
      append_judgments (append_judgments s xs) ys := by
  induction xs generalizing s with
  | nil => rfl
  | cons x rest ih =>
    obtain ⟨eid, jm, tc, v, sc, r⟩ := x
    simp [append_judgments, ih]

/-- `append_judgments` touches only the judgments table, appending exactly
the listed contents. -/
theorem append_judgments_spec (s : SQLiteExperimentStore)
    (rows : List (Nat × String × Nat × String × Option Int × String)) :
    (append_judgments s rows).experiments = s.experiments ∧
    (append_judgments s rows).debate_turns = s.debate_turns ∧
    (append_judgments s rows).judgments.map JudgmentRow.content =
      s.judgments.map JudgmentRow.content ++ rows := by
  induction rows generalizing s with
  | nil => simp [append_judgments]
  | cons x rest ih =>
    obtain ⟨eid, jm, tc, v, sc, r⟩ := x
    have h := ih (s.save_judgment eid jm tc v sc r).1
    refine ⟨h.1, h.2.1, ?_⟩
    rw [append_judgments, h.2.2]
    simp [SQLiteExperimentStore.save_judgment, JudgmentRow.content]

/-- The inner judge loop of `process_experiment`, characterized: it
performs exactly the `save_judgment` calls described by
`expected_pair_judgment` and logs exactly the invocations described by
`judge_invoked_for`, for the pairs `(turns, j)` over the judge list. -/
theorem process_pairs_chr (judge_fn : RetroJudgeFn) (experiment_id : Nat)
    (experiment_data : ExperimentJson) (turns : Nat) (judges : List String)
    (s : SQLiteExperimentStore) (n : Nat) (c : List (Nat × String)) :
    judges.foldl (process_pair_step judge_fn experiment_id
        experiment_data.claim experiment_data.debate_transcript turns)
      (s, n, c) =
      (append_judgments s ((judges.map (fun j => (turns, j))).filterMap
          (expected_pair_judgment judge_fn experiment_id experiment_data)),
       n + ((judges.map (fun j => (turns, j))).filterMap
          (expected_pair_judgment judge_fn experiment_id
            experiment_data)).length,
       c ++ (judges.map (fun j => (turns, j))).filter
          (judge_invoked_for experiment_data)) := by
  induction judges generalizing s n c with
  | nil => simp [append_judgments]
  | cons j js ih =>
    rw [List.foldl_cons]
    by_cases he : (truncate_debate_transcript
        experiment_data.debate_transcript turns).isEmpty
    · have hstep : process_pair_step judge_fn experiment_id
          experiment_data.claim experiment_data.debate_transcript turns
          (s, n, c) j = (s, n, c) := by
        simp [process_pair_step, judge_at_turn_cutoff, he]
      have hexp : expected_pair_judgment judge_fn experiment_id
          experiment_data (turns, j) = none := by
        simp [expected_pair_judgment, he]
      have hinv : judge_invoked_for experiment_data (turns, j) = false := by
        simp [judge_invoked_for, he]
      simpa [hstep, hexp, hinv] using ih s n c
    · cases hj : judge_fn j experiment_data.claim
          ((truncate_debate_transcript experiment_data.debate_transcript
            turns).map stored_entry_to_history) with
      | ok v =>
        have hstep : process_pair_step judge_fn experiment_id
            experiment_data.claim experiment_data.debate_transcript turns
            (s, n, c) j =
            ((s.save_judgment experiment_id (model_id j) turns v.verdict
                (some v.score) v.explanation).1, n + 1,
             c ++ [(turns, j)]) := by
          simp [process_pair_step, judge_at_turn_cutoff, he, hj]
        have hexp : expected_pair_judgment judge_fn experiment_id
            experiment_data (turns, j) =
            some (experiment_id, model_id j, turns, v.verdict,
              some v.score, v.explanation) := by
          simp [expected_pair_judgment, he, hj]
        have hinv : judge_invoked_for experiment_data (turns, j) = true := by
          simp [judge_invoked_for, he]
        rw [hstep, ih]
        refine Prod.ext ?_ (Prod.ext ?_ ?_) <;>
          simp [hexp, hinv, append_judgments] <;> omega
      | error err =>
        have hstep : process_pair_step judge_fn experiment_id
            experiment_data.claim experiment_data.debate_transcript turns
            (s, n, c) j = (s, n, c ++ [(turns, j)]) := by
          simp [process_pair_step, judge_at_turn_cutoff, he, hj]
        have hexp : expected_pair_judgment judge_fn experiment_id
            experiment_data (turns, j) = none := by
          simp [expected_pair_judgment, he, hj]
        have hinv : judge_invoked_for experiment_data (turns, j) = true := by
          simp [judge_invoked_for, he]
        rw [hstep, ih]
        refine Prod.ext ?_ (Prod.ext ?_ ?_) <;>
          simp [hexp, hinv]

/-- The outer cutoff loop of `process_experiment`, characterized over the
eligible pairs of the whole requested range. -/
theorem process_range_chr (judge_fn : RetroJudgeFn) (experiment_id : Nat)
    (experiment_data : ExperimentJson) (judge_models : List String)
    (turns_range : List Nat) (s : SQLiteExperimentStore) (n : Nat)
    (c : List (Nat × String)) :
    turns_range.foldl (fun acc turns =>
        if turns > experiment_data.config.turns then acc
        else judge_models.foldl (process_pair_step judge_fn experiment_id
            experiment_data.claim experiment_data.debate_transcript turns)
          acc) (s, n, c) =
      (append_judgments s
        ((eligible_pairs experiment_data judge_models turns_range).filterMap
          (expected_pair_judgment judge_fn experiment_id experiment_data)),
       n + ((eligible_pairs experiment_data judge_models
          turns_range).filterMap (expected_pair_judgment judge_fn
            experiment_id experiment_data)).length,
       c ++ (eligible_pairs experiment_data judge_models turns_range).filter
          (judge_invoked_for experiment_data)) := by
  induction turns_range generalizing s n c with
  | nil => simp [eligible_pairs, append_judgments]
  | cons t ts ih =>
    rw [List.foldl_cons]
    by_cases ht : t > experiment_data.config.turns
    · have helig : eligible_pairs experiment_data judge_models (t :: ts) =
          eligible_pairs experiment_data judge_models ts := by
        simp [eligible_pairs, List.filter_cons, ht]
      simpa [ht, helig] using ih s n c
    · have helig : eligible_pairs experiment_data judge_models (t :: ts) =
          judge_models.map (fun j => (t, j)) ++
            eligible_pairs experiment_data judge_models ts := by
        simp [eligible_pairs, List.filter_cons, ht]
      rw [if_neg ht, process_pairs_chr, ih, helig]
      refine Prod.ext ?_ (Prod.ext ?_ ?_) <;>
        simp [append_judgments_append] <;> omega

/-- C6 (amended): `process_experiment` visits every requested
`(cutoff, judge)` pair in order; a pair whose cutoff exceeds the record's
configured `turns` — or whose truncated transcript is empty (e.g. cutoff
`0`, or a record with no stored entries) — produces no judgment and no
judge call; a pair whose judge call errors produces no judgment but is
logged as an invocation and does not stop the remaining pairs; every
other pair results in exactly one judgment saved via `save_judgment`,
with the judge's verdict, score and reasoning.  The result is stated as a
full characterization: the final state is the input store extended by
exactly the `save_judgment` calls of `expected_pair_judgment` over the
eligible pairs, the created-count is their number, and the invocation log
is exactly the nonempty-truncation pairs.  Judgment contents (id aside)
and the untouched experiments/debate-turns tables are read off
explicitly. -/
theorem c6_retrospective_batch_characterization (judge_fn : RetroJudgeFn)
    (experiment_id : Nat) (experiment_data : ExperimentJson)
    (judge_models : List String) (turns_range : List Nat)
    (store : SQLiteExperimentStore) (skip_existing : Bool) :
    process_experiment judge_fn experiment_id experiment_data judge_models
        turns_range store skip_existing =
      (append_judgments store
        ((eligible_pairs experiment_data judge_models turns_range).filterMap
          (expected_pair_judgment judge_fn experiment_id experiment_data)),
       ((eligible_pairs experiment_data judge_models
          turns_range).filterMap (expected_pair_judgment judge_fn
            experiment_id experiment_data)).length,
       (eligible_pairs experiment_data judge_models turns_range).filter
          (judge_invoked_for experiment_data)) ∧
    (process_experiment judge_fn experiment_id experiment_data judge_models
        turns_range store skip_existing).1.experiments =
      store.experiments ∧
    (process_experiment judge_fn experiment_id experiment_data judge_models
        turns_range store skip_existing).1.debate_turns =
      store.debate_turns ∧
    (process_experiment judge_fn experiment_id experiment_data judge_models
        turns_range store skip_existing).1.judgments.map
        JudgmentRow.content =
      store.judgments.map JudgmentRow.content ++
        ((eligible_pairs experiment_data judge_models
          turns_range).filterMap (expected_pair_judgment judge_fn
            experiment_id experiment_data)) := by
  have h := process_range_chr judge_fn experiment_id experiment_data
    judge_models turns_range store 0 []
  have hmain : process_experiment judge_fn experiment_id experiment_data
      judge_models turns_range store skip_existing =
      (append_judgments store
        ((eligible_pairs experiment_data judge_models turns_range).filterMap
          (expected_pair_judgment judge_fn experiment_id experiment_data)),
       ((eligible_pairs experiment_data judge_models
          turns_range).filterMap (expected_pair_judgment judge_fn
            experiment_id experiment_data)).length,
       (eligible_pairs experiment_data judge_models turns_range).filter
          (judge_invoked_for experiment_data)) := by
    simpa [process_experiment] using h
  have hspec := append_judgments_spec store
    ((eligible_pairs experiment_data judge_models turns_range).filterMap
      (expected_pair_judgment judge_fn experiment_id experiment_data))
  refine ⟨hmain, ?_, ?_, ?_⟩ <;> rw [hmain] <;>
    simp [hspec.1, hspec.2.1, hspec.2.2]

/-- C6 (counterexample to the claim as stated): for the requested cutoff
`0` against a record with one round-1 entry and configured `turns = 1`,
using a judge that always succeeds, the cutoff does not exceed the
configured turns and the judge never errors, yet `process_experiment`
saves no judgment and never calls the judge — the truncated transcript is
empty (every stored entry has turn number at least 1), a skip case the
claim does not allow. -/
theorem c6_cex_cutoff_zero_pair_skipped :
    process_experiment always_ok_retro_judge 1 one_turn_record ["claude"]
        [0] empty_store true = (empty_store, 0, []) ∧
    ¬ (0 > one_turn_record.config.turns) ∧
    one_turn_record.debate_transcript.length = 1 := by
  exact ⟨rfl, by decide, rfl⟩

end AiDebate
